import Mathlib

/-!
Shallow embedding of the multi-agent decision pipeline of the
Sovereign-AI-Verifier repository: src/agents/validation.py,
src/agents/inference.py, src/agents/decision.py,
src/agents/recommendation.py, src/agents/workflow.py, the caller state of
src/app.py and src/api/routes.py, and the historical src/agent_workflow.py.

Modelling conventions.  Python strings are Lean `String`s, manipulated
through executable list-of-characters helpers mirroring `in`, `str.split`,
`str.strip`, `str.lower` and the label-anchored `re.search` patterns used by
the agents.  Python floats are modelled as exact rationals; every rational
appearing in an executable path is built with `mkRat` and compared through
integer arithmetic on `num`/`den` (the `Rat` field operations are irreducible
and would block kernel evaluation), with bridge lemmas connecting those
comparisons to the ordinary `Rat` operations.  Python expressions that can
raise (`ValueError` from `float`, `AttributeError` from `None.group`,
`KeyError` from a missing dict key) are modelled with `Except String`; an
`Except.error` that escapes an agent models an uncaught Python exception.
The SQLite audit logger is assumed to succeed and is modelled by the data an
agent passes to `DatabaseManager.log_agent_action`; the trained classifier
and the ollama text generator are external collaborators entering the model
as oracles (`MLModel` and `Option String`, `none` meaning the call raised).
-/

namespace SAV

/-- Python `\s` on ASCII text: space, tab, newline, carriage return,
vertical tab, form feed. -/
def pyIsSpace (c : Char) : Bool :=
  c.toNat = 32 || c.toNat = 9 || c.toNat = 10 || c.toNat = 13 || c.toNat = 11 || c.toNat = 12

/-- Python `pat in s` substring containment. -/
def containsSub (s pat : String) : Bool :=
  (List.range (s.data.length + 1)).any (fun i => pat.data.isPrefixOf (s.data.drop i))

/-- Value of a list of decimal digit characters. -/
def digitsToNat (cs : List Char) : Nat :=
  cs.foldl (fun a c => a * 10 + (c.toNat - 48)) 0

def isNumChar (c : Char) : Bool := c.isDigit || c = '.'

/-- `re.sub(r'[^\d.]', '', s)`: keep only digits and dots. -/
def stripToNum (s : String) : String := String.mk (s.data.filter isNumChar)

/-- Python `float(s)` on a string made of digits and dots: defined iff the
string has at most one dot and at least one digit; the value is the exact
decimal it denotes. -/
def pyFloatOfNumStr (cs : List Char) : Except String Rat :=
  if cs.count '.' ≤ 1 ∧ cs.any Char.isDigit then
    .ok (mkRat
      (Int.ofNat (digitsToNat (cs.takeWhile (fun c => !(c = '.'))) *
          10 ^ ((cs.dropWhile (fun c => !(c = '.'))).drop 1).length +
        digitsToNat ((cs.dropWhile (fun c => !(c = '.'))).drop 1)))
      (10 ^ ((cs.dropWhile (fun c => !(c = '.'))).drop 1).length))
  else .error "ValueError: could not convert string to float"

/-- `clean_val_local` from src/agents/validation.py and
src/agents/inference.py (identical to `clean_val` of src/agent_workflow.py
and src/utils/text_processing.py): strip every character other than digits
and dots, then apply Python `float`.  The empty (falsy) string and an empty
cleaned string give `0.0`; a cleaned string with two dots, or a dot and no
digit, raises `ValueError`. -/
def clean_val_local (s : String) : Except String Rat :=
  if s = "" then .ok (mkRat 0 1)
  else
    if stripToNum s = "" then .ok (mkRat 0 1)
    else pyFloatOfNumStr (stripToNum s).data

/-- One attempt of the regex `LABEL\s*(CLS+)` anchored at the start of `l`:
the literal label, then greedy whitespace, then a nonempty greedy run of
characters from the class. -/
def tryMatchAt (label : List Char) (allowed : Char → Bool) (l : List Char) : Option (List Char) :=
  if label.isPrefixOf l then
    if ((l.drop label.length).dropWhile pyIsSpace).takeWhile allowed = [] then none
    else some (((l.drop label.length).dropWhile pyIsSpace).takeWhile allowed)
  else none

/-- `re.search` scan: try the anchored match at every position, left to
right. -/
def searchLabelNum (label : List Char) (allowed : Char → Bool) : List Char → Option (List Char)
  | [] => none
  | c :: rest =>
    match tryMatchAt label allowed (c :: rest) with
    | some r => some r
    | none => searchLabelNum label allowed rest

/-- Models `re.search(label + r'\s*([CLS]+)', s).group(1)`.  When the label
occurs but the anchored pattern never matches, `re.search` returns `None`
and `.group(1)` raises `AttributeError`. -/
def regexLabelNum (label : String) (allowed : Char → Bool) (s : String) : Except String String :=
  match searchLabelNum label.data allowed s.data with
  | some r => .ok (String.mk r)
  | none => .error "AttributeError: NoneType has no attribute group"

/-- Fuel-driven worker for Python `str.split` with a nonempty separator
(fuel is the length of the scanned text, so it never runs out). -/
def pySplitGo (sep : List Char) : Nat → List Char → List Char → List (List Char)
  | _, [], acc => [acc.reverse]
  | 0, l, acc => [acc.reverse ++ l]
  | fuel + 1, c :: rest, acc =>
    if sep ≠ [] ∧ sep.isPrefixOf (c :: rest) then
      acc.reverse :: pySplitGo sep fuel ((c :: rest).drop sep.length) []
    else pySplitGo sep fuel rest (c :: acc)

/-- Python `s.split(sep)` for a nonempty separator: non-overlapping
occurrences, scanned left to right. -/
def pySplit (s sep : String) : List String :=
  (pySplitGo sep.data s.data.length s.data []).map String.mk

/-- Python `s.strip()` on ASCII text. -/
def pyStrip (s : String) : String :=
  String.mk (((s.data.dropWhile pyIsSpace).reverse.dropWhile pyIsSpace).reverse)

/-- Python `s.lower()` on ASCII text. -/
def pyLower (s : String) : String := String.mk (s.data.map Char.toLower)

/-- Python `int(x)` on a float: truncation toward zero. -/
def pyIntTrunc (q : Rat) : Int := Int.tdiv q.num (Int.ofNat q.den)

/-- Executable form of `abs(a - b) > 500` on exact rationals, computed by
cross-multiplied integer arithmetic so that concrete runs reduce in the
kernel; `absDiffGt500_iff` states it equals the mathematical comparison. -/
def absDiffGt500 (a b : Rat) : Bool :=
  decide ((500 : Int) * (a.den : Int) * (b.den : Int) <
    ((a.num * (b.den : Int) - b.num * (a.den : Int)).natAbs : Int))

/-- Document-summary map `extracted_data`: a Python dict of document kind to
normalized text summary, modelled as an insertion-ordered association list. -/
abbrev ExtData := List (String × String)

def lookupDoc (ext : ExtData) (k : String) : Option String :=
  (ext.find? (fun p => p.1 == k)).map (fun p => p.2)

/-- Python `ext.get(k, d)`. -/
def getD (ext : ExtData) (k d : String) : String := (lookupDoc ext k).getD d

/-- The `ui_data` fields the pipeline reads, typed as the agents use them
(`int(...)` conversions that cannot fail on these types are elided). -/
structure UiData where
  name : String
  family_size : Int
  age : Int
  marital_status : Int
  dependents : Int
  employment_status : String
deriving DecidableEq

/-- `doc_content.split("Identity: ")[1] if "Identity: " in doc_content else
doc_content` (src/agents/validation.py, identity check). -/
def identityDetail (content : String) : String :=
  if containsSub content "Identity: " then (pySplit content "Identity: ").getD 1 ""
  else content

/-- Check 1 of the validator: one reason per extracted document whose summary
contains the identity failure marker. -/
def identityMismatches (ext : ExtData) : List String :=
  ext.filterMap (fun p => if containsSub p.2 " Fail" then some (identityDetail p.2) else none)

/-- Character class `[\d,.]` of the salary/income regexes. -/
def isAmtChar (c : Char) : Bool := c.isDigit || c = ',' || c = '.'

/-- Bank-statement salary parse of the validator (src/agents/validation.py,
check 2): anchored regex when the label is present, else `0.0`. -/
def bankSal (ext : ExtData) : Except String Rat :=
  if containsSub (getD ext "Bank Statement" "") "Salary:" then
    match regexLabelNum "Salary:" isAmtChar (getD ext "Bank Statement" "") with
    | .ok g => clean_val_local g
    | .error e => .error e
  else .ok (mkRat 0 1)

/-- Credit-report income parse of the validator (check 2). -/
def creditInc (ext : ExtData) : Except String Rat :=
  if containsSub (getD ext "Credit Report" "") "Income:" then
    match regexLabelNum "Income:" isAmtChar (getD ext "Credit Report" "") with
    | .ok g => clean_val_local g
    | .error e => .error e
  else .ok 0

/-- Emirates-ID family-size parse of the validator (check 3):
`int(clean_val_local(re.search(r'Family:\s*(\d+)', ...).group(1))` when the
label is present, else `int(clean_val_local(0))`, which is `0`. -/
def eidFamE (ext : ExtData) : Except String Int :=
  if containsSub (getD ext "Emirates ID" "") "Family:" then
    match regexLabelNum "Family:" Char.isDigit (getD ext "Emirates ID" "") with
    | .ok g => (clean_val_local g).map pyIntTrunc
    | .error e => .error e
  else .ok 0

/-- Rendering of a Python float inside an f-string.  Python prints the
shortest round-tripping decimal; integral values render exactly as Python
does and non-integral ones as a fraction (no claim depends on the digits). -/
def pyFloatRepr (q : Rat) : String :=
  if q.den = 1 then toString q.num ++ ".0" else toString q.num ++ "/" ++ toString q.den

def salaryReason (bs ci : Rat) : String :=
  "salary mismatch: Bank Statement=" ++ pyFloatRepr bs ++ ", Credit Report=" ++ pyFloatRepr ci

def familyReason (uiFam idFam : Int) : String :=
  "family size mismatch: form=" ++ toString uiFam ++ ", ID=" ++ toString idFam

/-- The mismatch list accumulated by the validator: identity reasons, then
the income-consistency reason, then the family-size reason; the three checks
are independent and all evaluated. -/
def validationMismatches (ui : UiData) (ext : ExtData) (bs ci : Rat) (ef : Int) : List String :=
  identityMismatches ext
    ++ (if absDiffGt500 bs ci then [salaryReason bs ci] else [])
    ++ (if ui.family_size ≠ ef then [familyReason ui.family_size ef] else [])

structure ValidationResult where
  status : String
  final_decision : String
  decision_reason : String
  is_eligible : Int
  validation_errors : List String
deriving DecidableEq

/-- Python `" and ".join(l)`. -/
def joinAnd : List String → String
  | [] => ""
  | [s] => s
  | s :: rest => s ++ " and " ++ joinAnd rest

/-- Result construction of the validator (`if mismatches: ... else ...`,
written here with the branches flipped). -/
def validationBuild (ui : UiData) (ext : ExtData) (bs ci : Rat) (ef : Int) : ValidationResult :=
  if validationMismatches ui ext bs ci ef = [] then
    { status := "VALIDATED"
      final_decision := "Hello " ++ ui.name ++ ", your documents have been verified successfully."
      decision_reason := "All documents passed identity and consistency checks."
      is_eligible := 1
      validation_errors := [] }
  else
    { status := "REJECTED"
      final_decision := "Sorry " ++ ui.name ++ ", your application is rejected."
      decision_reason :=
        "The rejection is due to: " ++ joinAnd (validationMismatches ui ext bs ci ef) ++ "."
      is_eligible := 0
      validation_errors := validationMismatches ui ext bs ci ef }

/-- `validation_agent` from src/agents/validation.py.  A missing
`extracted_data` key raises; the income and family parses run after the
identity loop and can raise (no try/except in this agent), in evaluation
order bank salary, credit income, family size. -/
def validation_agent (ui : UiData) (extracted_data : Option ExtData) :
    Except String ValidationResult :=
  match extracted_data with
  | none => .error "KeyError: extracted_data"
  | some ext =>
    match bankSal ext with
    | .error e => .error e
    | .ok bs =>
      match creditInc ext with
      | .error e => .error e
      | .ok ci =>
        match eidFamE ext with
        | .error e => .error e
        | .ok ef => .ok (validationBuild ui ext bs ci ef)

/-- The fixed 10-field feature vector built by src/agents/inference.py. -/
structure Features where
  age : Int
  marital_status : Int
  family_size : Int
  dependents : Int
  monthly_income : Rat
  total_savings : Rat
  property_value : Rat
  has_disability : Int
  medical_severity : Int
  employment_status : String
deriving DecidableEq

/-- A feature-extraction `try/except` of the inference agent: any raised
error is replaced by the default `0.0`. -/
def exceptToDefault (e : Except String Rat) : Rat :=
  match e with
  | .ok v => v
  | .error _ => mkRat 0 1

/-- Credit-report savings parse of the inference agent. -/
def savingsVal (ext : ExtData) : Except String Rat :=
  if containsSub (getD ext "Credit Report" "") "Savings:" then
    match regexLabelNum "Savings:" isAmtChar (getD ext "Credit Report" "") with
    | .ok g => clean_val_local g
    | .error e => .error e
  else .ok (mkRat 0 1)

/-- Asset value parse of the inference agent:
`clean_val_local(ext.get('Assets', '0').split('Value:')[1])` guarded on the
label, inside try/except. -/
def propertyValue (ext : ExtData) : Rat :=
  if containsSub (getD ext "Assets" "") "Value:" then
    exceptToDefault (clean_val_local ((pySplit (getD ext "Assets" "0") "Value:").getD 1 ""))
  else mkRat 0 1

/-- Medical severity parse of the inference agent:
`int(clean_val_local(....split('Severity:')[1].split('/')[0]))` guarded on
the label, inside try/except. -/
def medicalSeverity (ext : ExtData) : Int :=
  if containsSub (getD ext "Medical Report" "") "Severity:" then
    match clean_val_local
        ((pySplit ((pySplit (getD ext "Medical Report" "0") "Severity:").getD 1 "") "/").getD 0 "") with
    | .ok v => pyIntTrunc v
    | .error _ => 0
  else 0

/-- `has_disability = 0 if "Fit" in ext.get('Medical Report', '') else 1`
(src/agents/inference.py line 84). -/
def has_disability_current (med : String) : Int := if containsSub med "Fit" then 0 else 1

/-- `'has_disability': 1 if "Diagnosis" in ext.get('Medical Report', '') else 0`
from the historical pipeline (src/agent_workflow.py line 91). -/
def has_disability_legacy (med : String) : Int := if containsSub med "Diagnosis" then 1 else 0

/-- Modelled from the spec (section 4.1), which describes a policy present in
neither pipeline version: "Disability flag is true iff a diagnosis marker is
present and no fit / no condition marker overrides it."  The markers are the
ones the two source versions use, plus the spec's "no condition". -/
def spec_has_disability (med : String) : Int :=
  if containsSub med "Diagnosis" && !(containsSub med "Fit" || containsSub med "no condition")
  then 1 else 0

/-- Feature extraction of src/agents/inference.py: every numeric field is
parsed inside try/except with default 0, the disability flag from the "Fit"
marker, the remaining fields copied from `ui_data` with default 0. -/
def extractFeatures (ui : UiData) (ext : ExtData) : Features :=
  { age := ui.age
    marital_status := ui.marital_status
    family_size := ui.family_size
    dependents := ui.dependents
    monthly_income := exceptToDefault (bankSal ext)
    total_savings := exceptToDefault (savingsVal ext)
    property_value := propertyValue ext
    has_disability := has_disability_current (getD ext "Medical Report" "")
    medical_severity := medicalSeverity ext
    employment_status := ui.employment_status }

/-- The classifier collaborator: the module-level `ml_model` of
src/agents/inference.py together with the behaviour of its `predict` /
`predict_proba` calls.  `unavailable` is `ml_model is None` (load failed);
`raisesOnPredict` is `predict` raising; `ok label proba` is a genuine
prediction, with `proba = none` when `predict_proba` raises (its
`except` sets confidence to `0.0`). -/
inductive MLModel where
  | unavailable
  | raisesOnPredict
  | ok (label : Int) (proba : Option Rat)
deriving DecidableEq

/-- The `(prediction, confidence)` pair the inference agent computes from the
classifier: every failure path degrades to `(0, 0.0)`. -/
def runModel (m : MLModel) : Int × Rat :=
  match m with
  | .unavailable => (0, mkRat 0 1)
  | .raisesOnPredict => (0, mkRat 0 1)
  | .ok label proba => (label, proba.getD (mkRat 0 1))

/-- Round `t / d` (with `d > 0`) to the nearest integer, ties to even — the
rounding Python's `format` uses. -/
def intRoundHalfEven (t d : Int) : Int :=
  if 2 * (t - (Int.fdiv t d) * d) < d then Int.fdiv t d
  else if d < 2 * (t - (Int.fdiv t d) * d) then Int.fdiv t d + 1
  else if Int.emod (Int.fdiv t d) 2 = 0 then Int.fdiv t d else Int.fdiv t d + 1

/-- Python `f"{q:.2%}"`. -/
def formatPercent2 (q : Rat) : String :=
  (if intRoundHalfEven (q.num * 10000) (Int.ofNat q.den) < 0 then "-" else "")
    ++ toString ((intRoundHalfEven (q.num * 10000) (Int.ofNat q.den)).natAbs / 100) ++ "."
    ++ (if (intRoundHalfEven (q.num * 10000) (Int.ofNat q.den)).natAbs % 100 < 10 then "0" else "")
    ++ toString ((intRoundHalfEven (q.num * 10000) (Int.ofNat q.den)).natAbs % 100) ++ "%"

/-- `action_description` the inference agent logs:
`f"ML prediction: {'ELIGIBLE' if prediction else 'NOT ELIGIBLE'} (confidence: {confidence:.2%})"`. -/
def inferDescription (prediction : Int) (confidence : Rat) : String :=
  "ML prediction: " ++ (if prediction ≠ 0 then "ELIGIBLE" else "NOT ELIGIBLE")
    ++ " (confidence: " ++ formatPercent2 confidence ++ ")"

/-- The partial update returned by the inference agent (`ui_data` passthrough
elided — the caller already holds it); `features = none` models the empty
dict of the fatal-error fallback. -/
structure InferenceResult where
  is_eligible : Int
  ml_prediction_confidence : Rat
  features : Option Features
deriving DecidableEq

/-- Everything src/agents/inference.py passes to
`DatabaseManager.log_agent_action` for one audit entry: agent name, input
snapshot (the feature dataframe), output snapshot and description. -/
structure InferAudit where
  agent_name : String
  input_features : Features
  out_is_eligible : Int
  out_confidence : Rat
  out_features : Features
  description : String
deriving DecidableEq

/-- `inference_agent` from src/agents/inference.py.  The whole body sits in a
blanket `try/except`; a state with no `extracted_data` key raises `KeyError`
on the first line and the `except` returns the fallback result without
logging any audit entry (`none` in the second component). -/
def inference_agent (m : MLModel) (ui : UiData) (extracted_data : Option ExtData) :
    InferenceResult × Option InferAudit :=
  match extracted_data with
  | none =>
    ({ is_eligible := 0, ml_prediction_confidence := mkRat 0 1, features := none }, none)
  | some ext =>
    ({ is_eligible := (runModel m).1
       ml_prediction_confidence := (runModel m).2
       features := some (extractFeatures ui ext) },
     some
       { agent_name := "inferencer"
         input_features := extractFeatures ui ext
         out_is_eligible := (runModel m).1
         out_confidence := (runModel m).2
         out_features := extractFeatures ui ext
         description := inferDescription (runModel m).1 (runModel m).2 })

structure DecisionResult where
  status : String
  final_decision : String
  decision_reason : String
deriving DecidableEq

/-- `decision_agent` from src/agents/decision.py.  The outcome depends only
on the truthiness of `is_eligible`; the features-empty fallback block merely
rebuilds the prompt data fed to the LLM oracle and cannot change the
outcome, so the prompt construction is absorbed into the oracle `llm`
(`none` = the ollama call raised; its `except` substitutes a fixed string). -/
def decision_agent (llm : Option String) (ui : UiData) (is_eligible : Int) : DecisionResult :=
  { status := if is_eligible ≠ 0 then "ACCEPTED" else "SOFT DECLINE"
    final_decision :=
      if is_eligible ≠ 0 then "Congratulations " ++ ui.name ++ ", your application is accepted."
      else "Sorry " ++ ui.name ++ ", your application has been soft declined based on eligibility rules."
    decision_reason :=
      match llm with
      | some t => pyStrip t
      | none => "Unable to generate reasoning at this time." }

def financialFallback : String :=
  "Financial Support is recommended based on your disability status and medical needs."

def enablementFallback : String :=
  "Economic Enablement is recommended to help you secure employment and build long-term stability."

def unableFallback : String := "Unable to generate recommendation at this time."

/-- `recommendation_agent` from src/agents/recommendation.py: "N/A" for a
non-accepted state; otherwise the LLM oracle's text, or on LLM failure the
rule-based fallback over `features.get('has_disability', 0)`,
`features.get('medical_severity', 0)` and
`ui_data.get('employment_status', '').lower()`. -/
def recommendation_agent (llm : Option String) (status : String) (ui : UiData)
    (features : Option Features) : String :=
  if status ≠ "ACCEPTED" then "N/A"
  else
    match llm with
    | some t => pyStrip t
    | none =>
      if ((match features with | some f => f.has_disability | none => 0) : Int) = 1
          ∨ (0 : Int) < ((match features with | some f => f.medical_severity | none => 0) : Int) then
        financialFallback
      else if pyLower ui.employment_status = "unemployed" then enablementFallback
      else unableFallback

/-- The shared record threaded through the workflow (the `AgentState` fields
the pipeline reads and writes). -/
structure PipelineState where
  status : String
  final_decision : String
  decision_reason : String
  recommendation : String
  is_eligible : Int
  ml_prediction_confidence : Rat
  features : Option Features
  validation_errors : List String
deriving DecidableEq

/-- The initial state built by src/app.py and src/api/routes.py before
`workflow.invoke`: note `recommendation` starts as the empty string. -/
def initialPipelineState : PipelineState :=
  { status := "PENDING", final_decision := "", decision_reason := "",
    recommendation := "", is_eligible := 0, ml_prediction_confidence := mkRat 0 1,
    features := none, validation_errors := [] }

/-- `{**state, **result}` merge of the validator's partial update. -/
def mergeValidation (st : PipelineState) (v : ValidationResult) : PipelineState :=
  { st with
    status := v.status
    final_decision := v.final_decision
    decision_reason := v.decision_reason
    is_eligible := v.is_eligible
    validation_errors := v.validation_errors }

/-- Merge of the inference agent's partial update. -/
def mergeInference (st : PipelineState) (ir : InferenceResult) : PipelineState :=
  { st with
    is_eligible := ir.is_eligible
    ml_prediction_confidence := ir.ml_prediction_confidence
    features := ir.features }

/-- Merge of the decision agent's partial update. -/
def mergeDecision (st : PipelineState) (d : DecisionResult) : PipelineState :=
  { st with
    status := d.status
    final_decision := d.final_decision
    decision_reason := d.decision_reason }

/-- The compiled LangGraph workflow of src/agents/workflow.py:
validator, then END if status is REJECTED else inferencer, then decider,
then advisor only if status is ACCEPTED.  Returns the final state (or the
uncaught exception escaping the graph) together with the list of agent names
that logged an audit entry, in execution order. -/
def run_workflow (m : MLModel) (llmDec llmRec : Option String) (ui : UiData)
    (extracted_data : Option ExtData) : Except String PipelineState × List String :=
  match validation_agent ui extracted_data with
  | .error e => (.error e, [])
  | .ok v =>
    if v.status = "REJECTED" then (.ok (mergeValidation initialPipelineState v), ["validator"])
    else
      if (decision_agent llmDec ui (inference_agent m ui extracted_data).1.is_eligible).status
          = "ACCEPTED" then
        (.ok { mergeDecision
                 (mergeInference (mergeValidation initialPipelineState v)
                   (inference_agent m ui extracted_data).1)
                 (decision_agent llmDec ui (inference_agent m ui extracted_data).1.is_eligible) with
               recommendation :=
                 recommendation_agent llmRec
                   (decision_agent llmDec ui
                     (inference_agent m ui extracted_data).1.is_eligible).status
                   ui (inference_agent m ui extracted_data).1.features },
         ["validator", "inferencer", "decider", "advisor"])
      else
        (.ok (mergeDecision
                (mergeInference (mergeValidation initialPipelineState v)
                  (inference_agent m ui extracted_data).1)
                (decision_agent llmDec ui (inference_agent m ui extracted_data).1.is_eligible)),
         ["validator", "inferencer", "decider"])

/-! ### Bridge lemmas -/

theorem mkRat_zero_one : mkRat 0 1 = 0 := by norm_num [mkRat]

/-- The executable income-gap test agrees with the mathematical statement
`abs(bank_sal - credit_inc) > 500`. -/
theorem absDiffGt500_iff (a b : Rat) : absDiffGt500 a b = true ↔ 500 < |a - b| := by
  have hda : (0:ℚ) < (a.den : ℚ) := by exact_mod_cast a.den_pos
  have hdb : (0:ℚ) < (b.den : ℚ) := by exact_mod_cast b.den_pos
  have hsub : a - b = ((a.num * (b.den : Int) - b.num * (a.den : Int) : Int) : ℚ) /
      ((a.den : ℚ) * (b.den : ℚ)) := by
    conv_lhs => rw [← Rat.num_div_den a, ← Rat.num_div_den b]
    rw [div_sub_div _ _ (ne_of_gt hda) (ne_of_gt hdb)]
    push_cast
    ring_nf
  have hpos : (0:ℚ) < (a.den : ℚ) * (b.den : ℚ) := mul_pos hda hdb
  rw [absDiffGt500, decide_eq_true_eq, hsub, abs_div, abs_of_pos hpos, lt_div_iff₀ hpos]
  rw [show |((a.num * (b.den : Int) - b.num * (a.den : Int) : Int) : ℚ)| =
      ((a.num * (b.den : Int) - b.num * (a.den : Int)).natAbs : ℚ) by
    rw [Int.cast_natAbs, Int.cast_abs]]
  constructor
  · intro h
    have h2 : 500 * (a.den : ℚ) * (b.den : ℚ) <
        ((a.num * (b.den : Int) - b.num * (a.den : Int)).natAbs : ℚ) := by
      exact_mod_cast h
    linarith
  · intro h
    have h2 : 500 * (a.den : ℚ) * (b.den : ℚ) <
        ((a.num * (b.den : Int) - b.num * (a.den : Int)).natAbs : ℚ) := by
      linarith
    exact_mod_cast h2

/-- A document whose summary carries the failure marker contributes an
identity mismatch. -/
theorem identityMismatches_ne_nil {ext : ExtData} {p : String × String}
    (hmem : p ∈ ext) (hfail : containsSub p.2 " Fail" = true) :
    identityMismatches ext ≠ [] := by
  have hm : identityDetail p.2 ∈ identityMismatches ext := by
    unfold identityMismatches
    exact List.mem_filterMap.mpr ⟨p, hmem, by simp [hfail]⟩
  exact List.ne_nil_of_mem hm

/-- Inversion: a validator run that returns did parse both incomes and the
family size, and built the result from them. -/
theorem validation_agent_ok {ui : UiData} {ext : ExtData} {r : ValidationResult}
    (h : validation_agent ui (some ext) = .ok r) :
    ∃ bs ci ef, bankSal ext = .ok bs ∧ creditInc ext = .ok ci ∧ eidFamE ext = .ok ef ∧
      r = validationBuild ui ext bs ci ef := by
  simp only [validation_agent] at h
  cases hb : bankSal ext with
  | error e => simp only [hb] at h; exact Except.noConfusion h
  | ok bs =>
    simp only [hb] at h
    cases hc : creditInc ext with
    | error e => simp only [hc] at h; exact Except.noConfusion h
    | ok ci =>
      simp only [hc] at h
      cases he : eidFamE ext with
      | error e => simp only [he] at h; exact Except.noConfusion h
      | ok ef =>
        simp only [he, Except.ok.injEq] at h
        exact ⟨bs, ci, ef, rfl, rfl, rfl, h.symm⟩

/-- Verdict and error-list shape of the validator's result record. -/
theorem validationBuild_shape (ui : UiData) (ext : ExtData) (bs ci : Rat) (ef : Int) :
    ((validationBuild ui ext bs ci ef).status = "REJECTED" ↔
      validationMismatches ui ext bs ci ef ≠ []) ∧
    ((validationBuild ui ext bs ci ef).status = "VALIDATED" ↔
      validationMismatches ui ext bs ci ef = []) ∧
    (validationBuild ui ext bs ci ef).validation_errors =
      (if validationMismatches ui ext bs ci ef = [] then []
       else validationMismatches ui ext bs ci ef) := by
  unfold validationBuild
  by_cases hms : validationMismatches ui ext bs ci ef = [] <;> simp [hms]

/-- Branch lemma: a REJECTED verdict ends the workflow after the validator. -/
theorem run_workflow_rejected {m : MLModel} {llmDec llmRec : Option String} {ui : UiData}
    {ext? : Option ExtData} {v : ValidationResult}
    (hv : validation_agent ui ext? = .ok v) (hstat : v.status = "REJECTED") :
    run_workflow m llmDec llmRec ui ext? =
      (.ok (mergeValidation initialPipelineState v), ["validator"]) := by
  simp only [run_workflow, hv, hstat, if_pos]

/-- Branch lemma: a non-REJECTED verdict followed by a non-ACCEPTED decision
runs validator, inferencer and decider. -/
theorem run_workflow_declined {m : MLModel} {llmDec llmRec : Option String} {ui : UiData}
    {ext? : Option ExtData} {v : ValidationResult}
    (hv : validation_agent ui ext? = .ok v) (hstat : ¬(v.status = "REJECTED"))
    (hd : ¬((decision_agent llmDec ui (inference_agent m ui ext?).1.is_eligible).status
        = "ACCEPTED")) :
    run_workflow m llmDec llmRec ui ext? =
      (.ok (mergeDecision
              (mergeInference (mergeValidation initialPipelineState v)
                (inference_agent m ui ext?).1)
              (decision_agent llmDec ui (inference_agent m ui ext?).1.is_eligible)),
       ["validator", "inferencer", "decider"]) := by
  simp only [run_workflow, hv]
  rw [if_neg hstat, if_neg hd]

/-- Branch lemma: a non-REJECTED verdict followed by an ACCEPTED decision
runs all four agents, the advisor writing the recommendation. -/
theorem run_workflow_accepted {m : MLModel} {llmDec llmRec : Option String} {ui : UiData}
    {ext? : Option ExtData} {v : ValidationResult}
    (hv : validation_agent ui ext? = .ok v) (hstat : ¬(v.status = "REJECTED"))
    (hd : (decision_agent llmDec ui (inference_agent m ui ext?).1.is_eligible).status
        = "ACCEPTED") :
    run_workflow m llmDec llmRec ui ext? =
      (.ok { mergeDecision
               (mergeInference (mergeValidation initialPipelineState v)
                 (inference_agent m ui ext?).1)
               (decision_agent llmDec ui (inference_agent m ui ext?).1.is_eligible) with
             recommendation :=
               recommendation_agent llmRec
                 (decision_agent llmDec ui (inference_agent m ui ext?).1.is_eligible).status
                 ui (inference_agent m ui ext?).1.features },
       ["validator", "inferencer", "decider", "advisor"]) := by
  simp only [run_workflow, hv]
  rw [if_neg hstat, if_pos hd]

/-! ### Claim C1 -/

/-- C1: if any extracted document's identity sub-check failed — its summary
contains the " Fail" marker — then whenever the workflow returns a final
state, the verdict is REJECTED and the audit trail is exactly ["validator"];
and in every case (even when a later parse in the validator raises) no
inferencer, decider or advisor audit entry is ever logged: those stages
never execute. -/
theorem C1_identity_failure_rejects_and_halts
    (m : MLModel) (llmDec llmRec : Option String) (ui : UiData) (ext : ExtData)
    (p : String × String) (hmem : p ∈ ext) (hfail : containsSub p.2 " Fail" = true) :
    (∀ st, (run_workflow m llmDec llmRec ui (some ext)).1 = .ok st →
        st.status = "REJECTED" ∧
        (run_workflow m llmDec llmRec ui (some ext)).2 = ["validator"]) ∧
    "inferencer" ∉ (run_workflow m llmDec llmRec ui (some ext)).2 ∧
    "decider" ∉ (run_workflow m llmDec llmRec ui (some ext)).2 ∧
    "advisor" ∉ (run_workflow m llmDec llmRec ui (some ext)).2 := by
  have hne : identityMismatches ext ≠ [] := identityMismatches_ne_nil hmem hfail
  cases hv : validation_agent ui (some ext) with
  | error e =>
    simp only [run_workflow, hv]
    exact ⟨fun st hst => absurd hst (by simp), by simp, by simp, by simp⟩
  | ok v =>
    obtain ⟨bs, ci, ef, hb, hc, he, rfl⟩ := validation_agent_ok hv
    have hms : validationMismatches ui ext bs ci ef ≠ [] := by
      intro hcontra
      unfold validationMismatches at hcontra
      exact hne (List.append_eq_nil.mp (List.append_eq_nil.mp hcontra).1).1
    have hstat : (validationBuild ui ext bs ci ef).status = "REJECTED" :=
      (validationBuild_shape ui ext bs ci ef).1.mpr hms
    rw [run_workflow_rejected hv hstat]
    refine ⟨fun st hst => ?_, by simp, by simp, by simp⟩
    have hst2 : mergeValidation initialPipelineState (validationBuild ui ext bs ci ef) = st := by
      simpa using hst
    subst hst2
    exact ⟨by simpa [mergeValidation] using hstat, rfl⟩

/-- Applicant and document constants used by the concrete runs below. -/
def uiW : UiData :=
  { name := "Aisha", family_size := 0, age := 30, marital_status := 1, dependents := 0,
    employment_status := "employed" }

def extC1 : ExtData := [("Bank Statement", "Identity:  Fail (ID 784 missing in Bank Statement)")]

/-- C1 witness: a concrete record with a failed identity sub-check in the
bank statement is REJECTED and its audit trail is exactly ["validator"]. -/
theorem C1_witness :
    (mergeValidation initialPipelineState
        (validationBuild uiW extC1 (mkRat 0 1) (mkRat 0 1) 0)).status = "REJECTED" ∧
    (run_workflow .unavailable none none uiW (some extC1)).2 = ["validator"] :=
  (C1_identity_failure_rejects_and_halts .unavailable none none uiW extC1
      ("Bank Statement", "Identity:  Fail (ID 784 missing in Bank Statement)")
      (by decide) (by decide)).1
    (mergeValidation initialPipelineState (validationBuild uiW extC1 (mkRat 0 1) (mkRat 0 1) 0))
    rfl

/-! ### Claim C2 -/

def extFit : ExtData := [("Medical Report", "Fit")]

/-- C2 counterexample: the audit entry logged for a classifier-unavailable
run (agent name, input snapshot, output snapshot and description) is
byte-for-byte identical to the one logged for a genuine label-0 prediction
whose predict_proba call failed, on the same applicant state — the fallback
is not distinguishable in the audit trail; it is logged (second conjunct
shows the genuine run really predicts 0, third that an entry exists). -/
theorem C2_counterexample :
    (inference_agent .unavailable uiW (some extFit)).2 =
      (inference_agent (.ok 0 none) uiW (some extFit)).2 ∧
    (inference_agent (.ok 0 none) uiW (some extFit)).1 =
      (inference_agent .unavailable uiW (some extFit)).1 ∧
    (inference_agent .unavailable uiW (some extFit)).2 ≠ none := by
  refine ⟨rfl, rfl, by simp [inference_agent]⟩

/-- C2 (amended): when the classifier is unavailable or its predict raises,
the inference stage returns label 0 with confidence 0.0 and the pipeline
outcome is never ACCEPTED — the record either was REJECTED by the validator
or terminates in SOFT DECLINE with is_eligible 0 and confidence 0.  (The
audit-trail entry, however, does not distinguish the fallback from a genuine
label-0 prediction: see the counterexample.) -/
theorem C2_amended_unavailable_never_accepts
    (m : MLModel) (llmDec llmRec : Option String) (ui : UiData) (ext? : Option ExtData)
    (hm : m = .unavailable ∨ m = .raisesOnPredict)
    (st : PipelineState) (h : (run_workflow m llmDec llmRec ui ext?).1 = .ok st) :
    st.status ≠ "ACCEPTED" ∧
    (st.status = "REJECTED" ∨
      (st.status = "SOFT DECLINE" ∧ st.is_eligible = 0 ∧ st.ml_prediction_confidence = 0)) := by
  have hrm : runModel m = (0, mkRat 0 1) := by
    rcases hm with rfl | rfl <;> rfl
  cases hv : validation_agent ui ext? with
  | error e =>
    simp only [run_workflow, hv] at h
    exact Except.noConfusion h
  | ok v =>
    by_cases hstat : v.status = "REJECTED"
    · rw [run_workflow_rejected hv hstat] at h
      simp only [Except.ok.injEq] at h
      subst h
      exact ⟨by simp [mergeValidation, hstat], Or.inl (by simp [mergeValidation, hstat])⟩
    · cases ext? with
      | none =>
        simp only [validation_agent] at hv
        exact Except.noConfusion hv
      | some ext =>
        have hie : (inference_agent m ui (some ext)).1.is_eligible = 0 := by
          simp [inference_agent, hrm]
        have hd : (decision_agent llmDec ui
            (inference_agent m ui (some ext)).1.is_eligible).status = "SOFT DECLINE" := by
          rw [hie]
          simp [decision_agent]
        have hdna : ¬((decision_agent llmDec ui
            (inference_agent m ui (some ext)).1.is_eligible).status = "ACCEPTED") := by
          rw [hd]
          simp
        rw [run_workflow_declined hv hstat hdna] at h
        simp only [Except.ok.injEq] at h
        subst h
        have hconf : (inference_agent m ui (some ext)).1.ml_prediction_confidence = 0 := by
          simp [inference_agent, hrm, mkRat_zero_one]
        refine ⟨?_, Or.inr ⟨?_, ?_, ?_⟩⟩ <;>
          simp [mergeDecision, mergeInference, mergeValidation, hie, hconf, decision_agent]

/-- The SOFT DECLINE state a classifier-unavailable run of the concrete
record below ends in. -/
def stSoftDecline : PipelineState :=
  mergeDecision
    (mergeInference (mergeValidation initialPipelineState
        (validationBuild uiW extFit (mkRat 0 1) (mkRat 0 1) 0))
      (inference_agent .unavailable uiW (some extFit)).1)
    (decision_agent none uiW (inference_agent .unavailable uiW (some extFit)).1.is_eligible)

/-- C2 witness: a concrete classifier-unavailable run ends in SOFT DECLINE
with label 0 and confidence 0, never ACCEPTED. -/
theorem C2_witness :
    stSoftDecline.status ≠ "ACCEPTED" ∧
    (stSoftDecline.status = "REJECTED" ∨
      (stSoftDecline.status = "SOFT DECLINE" ∧ stSoftDecline.is_eligible = 0 ∧
        stSoftDecline.ml_prediction_confidence = 0)) :=
  C2_amended_unavailable_never_accepts .unavailable none none uiW (some extFit)
    (Or.inl rfl) stSoftDecline rfl

/-! ### Claim C3 -/

/-- Shared shape lemma: whenever the validator returns, the verdict is
REJECTED iff the error list is non-empty (VALIDATED otherwise) and the
error list is exactly the concatenation of the three checks' contributions. -/
theorem validation_result_shape
    (ui : UiData) (ext : ExtData) (r : ValidationResult) (bs ci : Rat) (ef : Int)
    (hv : validation_agent ui (some ext) = .ok r)
    (hb : bankSal ext = .ok bs) (hc : creditInc ext = .ok ci) (he : eidFamE ext = .ok ef) :
    (r.status = "REJECTED" ↔ r.validation_errors ≠ []) ∧
    (r.status = "VALIDATED" ↔ r.validation_errors = []) ∧
    r.validation_errors =
      identityMismatches ext
        ++ (if absDiffGt500 bs ci then [salaryReason bs ci] else [])
        ++ (if ui.family_size ≠ ef then [familyReason ui.family_size ef] else []) := by
  obtain ⟨bs2, ci2, ef2, hb2, hc2, he2, rfl⟩ := validation_agent_ok hv
  obtain rfl : bs = bs2 := Except.ok.inj (hb.symm.trans hb2)
  obtain rfl : ci = ci2 := Except.ok.inj (hc.symm.trans hc2)
  obtain rfl : ef = ef2 := Except.ok.inj (he.symm.trans he2)
  have hshape := validationBuild_shape ui ext bs ci ef
  have herr : (validationBuild ui ext bs ci ef).validation_errors =
      validationMismatches ui ext bs ci ef := by
    rw [hshape.2.2]
    by_cases hms : validationMismatches ui ext bs ci ef = []
    · rw [if_pos hms, hms]
    · rw [if_neg hms]
  refine ⟨?_, ?_, herr⟩
  · rw [herr]
    exact hshape.1
  · rw [herr]
    exact hshape.2.1

/-- C3: whenever the validator returns, its verdict is REJECTED iff the
accumulated mismatch list is non-empty and VALIDATED otherwise, and that
list is exactly the concatenation of the contributions of the three
independent checks — identity, income consistency, family size — so every
failing check contributes its own reason and none is short-circuited. -/
theorem C3_verdict_iff_reasons
    (ui : UiData) (ext : ExtData) (r : ValidationResult) (bs ci : Rat) (ef : Int)
    (hv : validation_agent ui (some ext) = .ok r)
    (hb : bankSal ext = .ok bs) (hc : creditInc ext = .ok ci) (he : eidFamE ext = .ok ef) :
    (r.status = "REJECTED" ↔ r.validation_errors ≠ []) ∧
    (r.status = "VALIDATED" ↔ r.validation_errors = []) ∧
    r.validation_errors =
      identityMismatches ext
        ++ (if absDiffGt500 bs ci then [salaryReason bs ci] else [])
        ++ (if ui.family_size ≠ ef then [familyReason ui.family_size ef] else []) :=
  validation_result_shape ui ext r bs ci ef hv hb hc he

def ext501 : ExtData := [("Bank Statement", "Salary: 4000"), ("Credit Report", "Income: 4501")]
def ext500 : ExtData := [("Bank Statement", "Salary: 4000"), ("Credit Report", "Income: 4500")]

/-- C3 witness: on a concrete record whose only failing check is the income
comparison, the non-empty reason list makes the verdict REJECTED. -/
theorem C3_witness :
    (validationBuild uiW ext501 (mkRat 4000 1) (mkRat 4501 1) 0).status = "REJECTED" := by
  have h := C3_verdict_iff_reasons uiW ext501
    (validationBuild uiW ext501 (mkRat 4000 1) (mkRat 4501 1) 0)
    (mkRat 4000 1) (mkRat 4501 1) 0 rfl rfl rfl rfl
  exact h.1.mpr (by rw [h.2.2]; decide)

/-! ### Claim C4 -/

/-- C4: with the identity check clean and the family sizes agreeing, the
income-consistency check is decisive and triggers exactly when the absolute
difference between the bank-statement salary and the credit-report income
strictly exceeds 500: the salary-mismatch reason is present iff the gap
exceeds 500, and the verdict is REJECTED iff it does, VALIDATED otherwise. -/
theorem C4_income_tolerance
    (ui : UiData) (ext : ExtData) (r : ValidationResult) (bs ci : Rat) (ef : Int)
    (hv : validation_agent ui (some ext) = .ok r)
    (hb : bankSal ext = .ok bs) (hc : creditInc ext = .ok ci) (he : eidFamE ext = .ok ef)
    (hid : identityMismatches ext = []) (hfam : ui.family_size = ef) :
    (salaryReason bs ci ∈ r.validation_errors ↔ 500 < |bs - ci|) ∧
    (r.status = "REJECTED" ↔ 500 < |bs - ci|) ∧
    (r.status = "VALIDATED" ↔ ¬(500 < |bs - ci|)) := by
  have h3 := validation_result_shape ui ext r bs ci ef hv hb hc he
  have hmseq : r.validation_errors =
      (if absDiffGt500 bs ci then [salaryReason bs ci] else []) := by
    rw [h3.2.2, hid, hfam]
    simp
  have habs := absDiffGt500_iff bs ci
  cases hgt : absDiffGt500 bs ci with
  | false =>
    have hq : ¬(500 < |bs - ci|) := fun hp => by simp [habs.mpr hp] at hgt
    have herr : r.validation_errors = [] := by
      rw [hmseq, hgt]
      rfl
    refine ⟨by simp [herr, hq], ?_, ?_⟩
    · rw [h3.1, herr]
      simp [hq]
    · rw [h3.2.1, herr]
      simp [hq]
  | true =>
    have hq : 500 < |bs - ci| := habs.mp hgt
    have herr : r.validation_errors = [salaryReason bs ci] := by
      rw [hmseq, hgt]
      rfl
    refine ⟨by simp [herr, hq], ?_, ?_⟩
    · rw [h3.1, herr]
      simp [hq]
    · rw [h3.2.1, herr]
      simp [hq]

/-- C4 witness: the boundary cases — a gap of exactly 500 does not trigger
the mismatch (VALIDATED), a gap of 501 does (REJECTED). -/
theorem C4_witness :
    ¬(500 < |(mkRat 4000 1 : Rat) - mkRat 4500 1|) ∧
    (validationBuild uiW ext500 (mkRat 4000 1) (mkRat 4500 1) 0).status = "VALIDATED" ∧
    (500 < |(mkRat 4000 1 : Rat) - mkRat 4501 1|) ∧
    (validationBuild uiW ext501 (mkRat 4000 1) (mkRat 4501 1) 0).status = "REJECTED" := by
  have hno : ¬(500 < |(mkRat 4000 1 : Rat) - mkRat 4500 1|) := fun hp =>
    absurd ((absDiffGt500_iff (mkRat 4000 1) (mkRat 4500 1)).mpr hp) (by decide)
  have hyes : 500 < |(mkRat 4000 1 : Rat) - mkRat 4501 1| :=
    (absDiffGt500_iff (mkRat 4000 1) (mkRat 4501 1)).mp (by decide)
  refine ⟨hno, ?_, hyes, ?_⟩
  · exact (C4_income_tolerance uiW ext500 _ (mkRat 4000 1) (mkRat 4500 1) 0
      rfl rfl rfl rfl rfl rfl).2.2.mpr hno
  · exact (C4_income_tolerance uiW ext501 _ (mkRat 4000 1) (mkRat 4501 1) 0
      rfl rfl rfl rfl rfl rfl).2.1.mpr hyes

/-! ### Claim C5 -/

/-- On LLM failure the advisor's fallback for an accepted applicant is one
of exactly three sentences. -/
theorem recommendation_fallback_cases (u : UiData) (fo : Option Features) :
    recommendation_agent none "ACCEPTED" u fo = financialFallback ∨
    recommendation_agent none "ACCEPTED" u fo = enablementFallback ∨
    recommendation_agent none "ACCEPTED" u fo = unableFallback := by
  unfold recommendation_agent
  rw [if_neg (by simp)]
  by_cases h1 : ((match fo with | some f => f.has_disability | none => 0) : Int) = 1
      ∨ (0 : Int) < ((match fo with | some f => f.medical_severity | none => 0) : Int)
  · rw [if_pos h1]
    exact Or.inl rfl
  · rw [if_neg h1]
    by_cases h2 : pyLower u.employment_status = "unemployed"
    · rw [if_pos h2]
      exact Or.inr (Or.inl rfl)
    · rw [if_neg h2]
      exact Or.inr (Or.inr rfl)

/-- C5 counterexample: (i) an ACCEPTED applicant with no disability, zero
medical severity and employment other than "unemployed", whose text
generation fails, receives the indeterminate sentence "Unable to generate
recommendation at this time." — not a pathway-derived text; (ii) a REJECTED
record ends with recommendation "" (its intake value, the advisor never
runs), not "N/A". -/
theorem C5_counterexample :
    ((run_workflow (.ok 1 (some (mkRat 9 10))) none none uiW (some extFit)).1.map
        (fun st => (st.status, st.recommendation))) = .ok ("ACCEPTED", unableFallback) ∧
    ((run_workflow .unavailable none none uiW (some ext501)).1.map
        (fun st => (st.status, st.recommendation))) = .ok ("REJECTED", "") := by
  exact ⟨rfl, rfl⟩

/-- C5 (amended): in a run whose advisor text generation fails, a record with
a non-ACCEPTED terminal outcome keeps the intake value "" in its
recommendation field (the advisor, which would write "N/A", is never
invoked); an ACCEPTED record always receives a non-empty recommendation,
which is one of THREE sentences: the FinancialSupport fallback, the
EconomicEnablement fallback, or the indeterminate "Unable to generate
recommendation at this time.". -/
theorem C5_amended_recommendation_values
    (m : MLModel) (llmDec : Option String) (ui : UiData) (ext? : Option ExtData)
    (st : PipelineState) (h : (run_workflow m llmDec none ui ext?).1 = .ok st) :
    (st.status ≠ "ACCEPTED" → st.recommendation = "") ∧
    (st.status = "ACCEPTED" →
      (st.recommendation = financialFallback ∨ st.recommendation = enablementFallback ∨
        st.recommendation = unableFallback) ∧ st.recommendation ≠ "") := by
  cases hv : validation_agent ui ext? with
  | error e =>
    simp only [run_workflow, hv] at h
    exact Except.noConfusion h
  | ok v =>
    by_cases hstat : v.status = "REJECTED"
    · rw [run_workflow_rejected hv hstat] at h
      simp only [Except.ok.injEq] at h
      subst h
      refine ⟨fun _ => by simp [mergeValidation, initialPipelineState], fun hacc => ?_⟩
      exact absurd hacc (by simp [mergeValidation, hstat])
    · by_cases hd : (decision_agent llmDec ui
          (inference_agent m ui ext?).1.is_eligible).status = "ACCEPTED"
      · rw [run_workflow_accepted hv hstat hd] at h
        simp only [Except.ok.injEq] at h
        subst h
        have hrec := recommendation_fallback_cases ui (inference_agent m ui ext?).1.features
        refine ⟨fun hne => absurd (by simp [mergeDecision, hd]) hne, fun _ => ?_⟩
        have hrecval : recommendation_agent none
            (decision_agent llmDec ui (inference_agent m ui ext?).1.is_eligible).status
            ui (inference_agent m ui ext?).1.features =
            recommendation_agent none "ACCEPTED" ui (inference_agent m ui ext?).1.features := by
          rw [hd]
        constructor
        · rw [show ({ mergeDecision
                (mergeInference (mergeValidation initialPipelineState v)
                  (inference_agent m ui ext?).1)
                (decision_agent llmDec ui (inference_agent m ui ext?).1.is_eligible) with
              recommendation :=
                recommendation_agent none
                  (decision_agent llmDec ui (inference_agent m ui ext?).1.is_eligible).status
                  ui (inference_agent m ui ext?).1.features } : PipelineState).recommendation =
              recommendation_agent none "ACCEPTED" ui (inference_agent m ui ext?).1.features
            from hrecval]
          exact hrec
        · rcases hrec with hr | hr | hr <;>
            simp [hrecval, hr, financialFallback, enablementFallback, unableFallback]
      · rw [run_workflow_declined hv hstat hd] at h
        simp only [Except.ok.injEq] at h
        subst h
        refine ⟨fun _ => by simp [mergeDecision, mergeInference, mergeValidation,
          initialPipelineState], fun hacc => ?_⟩
        exact absurd (by simpa [mergeDecision] using hacc) hd

/-- The ACCEPTED state with failed advisor text generation that the concrete
run of `C5_witness` ends in. -/
def stC5Accept : PipelineState :=
  { mergeDecision
      (mergeInference (mergeValidation initialPipelineState
          (validationBuild uiW extFit (mkRat 0 1) (mkRat 0 1) 0))
        (inference_agent (.ok 1 (some (mkRat 9 10))) uiW (some extFit)).1)
      (decision_agent none uiW
        (inference_agent (.ok 1 (some (mkRat 9 10))) uiW (some extFit)).1.is_eligible) with
    recommendation :=
      recommendation_agent none
        (decision_agent none uiW
          (inference_agent (.ok 1 (some (mkRat 9 10))) uiW (some extFit)).1.is_eligible).status
        uiW (inference_agent (.ok 1 (some (mkRat 9 10))) uiW (some extFit)).1.features }

/-- C5 witness: a concrete ACCEPTED run with failed text generation gets one
of the three fallback sentences and a non-empty recommendation. -/
theorem C5_witness :
    (stC5Accept.recommendation = financialFallback ∨
      stC5Accept.recommendation = enablementFallback ∨
      stC5Accept.recommendation = unableFallback) ∧ stC5Accept.recommendation ≠ "" :=
  (C5_amended_recommendation_values (.ok 1 (some (mkRat 9 10))) none uiW (some extFit)
      stC5Accept rfl).2 (by rfl)

/-! ### Claim C6 -/

/-- C6 counterexample: a fatal error inside the inference stage — the
KeyError raised when the record lacks its extracted_data — is swallowed by
the stage's blanket except: the stage returns the fallback success-shaped
result (label 0, confidence 0.0, empty features, no audit entry), and
feeding its label to the decider yields the ordinary SOFT DECLINE outcome —
a half-populated success response, not an Error terminal state carrying the
stage name. -/
theorem C6_counterexample :
    inference_agent .unavailable uiW none =
      ({ is_eligible := 0, ml_prediction_confidence := mkRat 0 1, features := none }, none) ∧
    (decision_agent none uiW
        (inference_agent .unavailable uiW none).1.is_eligible).status = "SOFT DECLINE" ∧
    (decision_agent none uiW
        (inference_agent .unavailable uiW none).1.is_eligible).status ≠ "ERROR" := by
  exact ⟨rfl, rfl, by decide⟩

/-- C6 (amended): there is no Error terminal state.  A fatal exception inside
the inference stage is caught and converted to the fallback zero result, so
the pipeline proceeds as an ordinary SOFT DECLINE; a fatal exception inside
the validator propagates out of the workflow as a raw exception carrying no
stage name in the record (modelled by `Except.error`); and every state the
workflow does return has status REJECTED, SOFT DECLINE or ACCEPTED. -/
theorem C6_amended_no_error_state
    (m : MLModel) (llmDec llmRec : Option String) (ui : UiData) :
    inference_agent m ui none =
      ({ is_eligible := 0, ml_prediction_confidence := mkRat 0 1, features := none }, none) ∧
    (run_workflow m llmDec llmRec ui none).1 = .error "KeyError: extracted_data" ∧
    (∀ ext? st, (run_workflow m llmDec llmRec ui ext?).1 = .ok st →
      st.status = "REJECTED" ∨ st.status = "SOFT DECLINE" ∨ st.status = "ACCEPTED") := by
  refine ⟨rfl, by simp [run_workflow, validation_agent], ?_⟩
  intro ext? st h
  cases hv : validation_agent ui ext? with
  | error e =>
    simp only [run_workflow, hv] at h
    exact Except.noConfusion h
  | ok v =>
    by_cases hstat : v.status = "REJECTED"
    · rw [run_workflow_rejected hv hstat] at h
      simp only [Except.ok.injEq] at h
      subst h
      exact Or.inl (by simp [mergeValidation, hstat])
    · by_cases hd : (decision_agent llmDec ui
          (inference_agent m ui ext?).1.is_eligible).status = "ACCEPTED"
      · rw [run_workflow_accepted hv hstat hd] at h
        simp only [Except.ok.injEq] at h
        subst h
        exact Or.inr (Or.inr (by simp [mergeDecision, hd]))
      · rw [run_workflow_declined hv hstat hd] at h
        simp only [Except.ok.injEq] at h
        subst h
        have hsd : (decision_agent llmDec ui
            (inference_agent m ui ext?).1.is_eligible).status = "SOFT DECLINE" := by
          by_cases hel : (inference_agent m ui ext?).1.is_eligible ≠ 0
          · exact absurd (by simp [decision_agent, hel]) hd
          · simp [decision_agent, hel]
        exact Or.inr (Or.inl (by simp [mergeDecision, hsd]))

/-- C6 witness: the soft-declined state of a concrete run is one of the three
real terminal statuses (no Error state exists). -/
theorem C6_witness :
    stSoftDecline.status = "REJECTED" ∨ stSoftDecline.status = "SOFT DECLINE" ∨
      stSoftDecline.status = "ACCEPTED" :=
  (C6_amended_no_error_state .unavailable none none uiW).2.2 (some extFit) stSoftDecline rfl

/-! ### Claim C7 -/

/-- C7 counterexample: the numeric-cleaning helper raises ValueError on
"1.2.3" (two dots survive the cleaning), and the validator raises
AttributeError when a summary contains the "Salary:" label but the anchored
numeric pattern never matches — the parsing used by the validator is not
total. -/
theorem C7_counterexample :
    clean_val_local "1.2.3" = .error "ValueError: could not convert string to float" ∧
    validation_agent uiW (some [("Bank Statement", "Salary: TBD")]) =
      .error "AttributeError: NoneType has no attribute group" := by
  exact ⟨rfl, rfl⟩

/-- C7 (amended): the inference-stage extraction is total — a record with
none of the labelled documents yields the numeric defaults 0 — and the
numeric cleaner returns a value on every string whose characters include a
digit and at most one dot; but (per the counterexample) the cleaner raises
on other malformed strings and the validator's label-anchored extraction
raises when a label is present without an anchored match. -/
theorem C7_amended_inference_totality :
    (∀ s : String, s.data.count ('.' : Char) ≤ 1 → s.data.any Char.isDigit = true →
      ∃ q, clean_val_local s = .ok q) ∧
    (∀ ui : UiData, ∀ ext : ExtData,
      lookupDoc ext "Bank Statement" = none → lookupDoc ext "Credit Report" = none →
      lookupDoc ext "Assets" = none → lookupDoc ext "Medical Report" = none →
      (extractFeatures ui ext).monthly_income = 0 ∧
      (extractFeatures ui ext).total_savings = 0 ∧
      (extractFeatures ui ext).property_value = 0 ∧
      (extractFeatures ui ext).medical_severity = 0) := by
  constructor
  · intro s hdots hdig
    unfold clean_val_local
    by_cases hs : s = ""
    · exact ⟨mkRat 0 1, by rw [if_pos hs]⟩
    · rw [if_neg hs]
      by_cases hc : stripToNum s = ""
      · exact ⟨mkRat 0 1, by rw [if_pos hc]⟩
      · rw [if_neg hc]
        unfold pyFloatOfNumStr
        have hd1 : (stripToNum s).data.count ('.' : Char) ≤ 1 := by
          refine le_trans ?_ hdots
          exact (List.filter_sublist s.data).count_le ('.' : Char)
        have hd2 : (stripToNum s).data.any Char.isDigit = true := by
          rw [List.any_eq_true] at hdig ⊢
          obtain ⟨c, hcmem, hcdig⟩ := hdig
          exact ⟨c, List.mem_filter.mpr ⟨hcmem, by simp [isNumChar, hcdig]⟩, hcdig⟩
        rw [if_pos ⟨hd1, hd2⟩]
        exact ⟨_, rfl⟩
  · intro ui ext h1 h2 h3 h4
    have g1 : getD ext "Bank Statement" "" = "" := by rw [getD, h1]; rfl
    have g2 : getD ext "Credit Report" "" = "" := by rw [getD, h2]; rfl
    have g3 : getD ext "Assets" "" = "" := by rw [getD, h3]; rfl
    have g4 : getD ext "Medical Report" "" = "" := by rw [getD, h4]; rfl
    have cs1 : containsSub "" "Salary:" = false := by decide
    have cs2 : containsSub "" "Savings:" = false := by decide
    have cs3 : containsSub "" "Value:" = false := by decide
    have cs4 : containsSub "" "Severity:" = false := by decide
    refine ⟨?_, ?_, ?_, ?_⟩ <;>
      simp [extractFeatures, bankSal, savingsVal, propertyValue, medicalSeverity,
        exceptToDefault, g1, g2, g3, g4, cs1, cs2, cs3, cs4, mkRat_zero_one]

/-- C7 witness: a record with no documents at all extracts the all-defaults
numeric features without raising. -/
theorem C7_witness :
    (extractFeatures uiW []).monthly_income = 0 ∧ (extractFeatures uiW []).total_savings = 0 ∧
    (extractFeatures uiW []).property_value = 0 ∧
    (extractFeatures uiW []).medical_severity = 0 :=
  C7_amended_inference_totality.2 uiW [] rfl rfl rfl rfl

/-! ### Claim C8 -/

/-- C8 counterexample: a medical summary with neither a diagnosis marker nor
a fit marker.  The spec policy (diagnosis present and not overridden) gives
no disability, and so does the historical "Diagnosis"-keyed version, but the
current inference agent derives the flag purely from the absence of "Fit"
and reports a disability. -/
theorem C8_counterexample :
    (extractFeatures uiW [("Medical Report", "Patient under observation")]).has_disability = 1 ∧
    spec_has_disability "Patient under observation" = 0 ∧
    has_disability_legacy "Patient under observation" = 0 := by
  exact ⟨rfl, by decide, by decide⟩

/-- C8 (amended): the current agent sets has_disability to 1 exactly when the
Medical Report summary lacks the "Fit" marker — a diagnosis marker is never
consulted — while the historical version sets it to 1 exactly when the
summary contains "Diagnosis" — a fit marker is never consulted. -/
theorem C8_amended_disability_policies (ui : UiData) (ext : ExtData) (med : String) :
    ((extractFeatures ui ext).has_disability = 1 ↔
      containsSub (getD ext "Medical Report" "") "Fit" = false) ∧
    (has_disability_legacy med = 1 ↔ containsSub med "Diagnosis" = true) := by
  constructor
  · show has_disability_current (getD ext "Medical Report" "") = 1 ↔ _
    unfold has_disability_current
    cases hb : containsSub (getD ext "Medical Report" "") "Fit" <;> simp [hb]
  · unfold has_disability_legacy
    cases hb : containsSub med "Diagnosis" <;> simp [hb]

/-! ### Claim C9 -/

/-- C9: if the Emirates ID summary is absent from the extracted documents, or
contains no "Family:" labelled field, the validator parses the ID family
size as 0; consequently, whenever it returns on a record whose form-declared
family size is nonzero, the verdict is REJECTED and the reason list contains
the family-size mismatch against ID = 0. -/
theorem C9_missing_eid_rejects
    (ui : UiData) (ext : ExtData) (r : ValidationResult)
    (hv : validation_agent ui (some ext) = .ok r)
    (hmiss : lookupDoc ext "Emirates ID" = none ∨
      containsSub (getD ext "Emirates ID" "") "Family:" = false)
    (hfam : ui.family_size ≠ 0) :
    eidFamE ext = .ok 0 ∧ r.status = "REJECTED" ∧
    familyReason ui.family_size 0 ∈ r.validation_errors := by
  have he0 : eidFamE ext = .ok 0 := by
    unfold eidFamE
    rcases hmiss with hm | hm
    · have hg : getD ext "Emirates ID" "" = "" := by rw [getD, hm]; rfl
      rw [hg, if_neg (by decide : ¬(containsSub "" "Family:" = true))]
    · rw [if_neg (by simp [hm])]
  obtain ⟨bs, ci, ef, hb, hc, he, rfl⟩ := validation_agent_ok hv
  obtain rfl : ef = 0 := Except.ok.inj (he.symm.trans he0)
  have h3 := validation_result_shape ui ext _ bs ci 0 hv hb hc he
  have hmem : familyReason ui.family_size 0 ∈
      (validationBuild ui ext bs ci 0).validation_errors := by
    rw [h3.2.2]
    refine List.mem_append.mpr (Or.inr ?_)
    rw [if_pos hfam]
    simp
  exact ⟨he0, h3.1.mpr (List.ne_nil_of_mem hmem), hmem⟩

def uiFam : UiData := { uiW with family_size := 3 }

/-- C9 witness: a record with no Emirates ID document at all and form family
size 3 is REJECTED with the family-size mismatch against ID = 0. -/
theorem C9_witness :
    eidFamE [] = .ok 0 ∧
    (validationBuild uiFam [] (mkRat 0 1) (mkRat 0 1) 0).status = "REJECTED" ∧
    familyReason 3 0 ∈ (validationBuild uiFam [] (mkRat 0 1) (mkRat 0 1) 0).validation_errors :=
  C9_missing_eid_rejects uiFam [] _ rfl (Or.inl rfl) (by decide)

/-! ### Claim C10 -/

/-- C10: when the Medical Report summary is absent from the extracted
documents, or contains no "Fit" marker, the feature vector the inference
agent builds (and passes to the classifier) carries has_disability = 1: a
completely missing medical report is treated as the applicant having a
disability, not as the flag defaulting to false. -/
theorem C10_missing_medical_means_disability
    (m : MLModel) (ui : UiData) (ext : ExtData)
    (hmiss : lookupDoc ext "Medical Report" = none ∨
      containsSub (getD ext "Medical Report" "") "Fit" = false) :
    (inference_agent m ui (some ext)).1.features = some (extractFeatures ui ext) ∧
    (extractFeatures ui ext).has_disability = 1 := by
  refine ⟨rfl, ?_⟩
  show has_disability_current (getD ext "Medical Report" "") = 1
  unfold has_disability_current
  rcases hmiss with hm | hm
  · have hg : getD ext "Medical Report" "" = "" := by rw [getD, hm]; rfl
    rw [hg, if_neg (by decide : ¬(containsSub "" "Fit" = true))]
  · rw [if_neg (by simp [hm])]

/-- C10 witness: a record with no Medical Report document at all gets
has_disability = 1 in the classifier features. -/
theorem C10_witness :
    (inference_agent .unavailable uiW (some [])).1.features = some (extractFeatures uiW []) ∧
    (extractFeatures uiW []).has_disability = 1 :=
  C10_missing_medical_means_disability .unavailable uiW [] (Or.inl rfl)

end SAV
